import Mathlib

/-!
Verification of the SQL job orchestration engine of `bf1942-analytics`:
the migration applier (`analytics_app/migrations.py`), the SQL job loader,
parser and executor (`analytics_app/sql_jobs.py`), the scheduled batch
runner (`analytics_app/jobs.py`) and the scheduler manager
(`analytics_app/scheduler.py`), shallowly embedded in Lean.

Strings from the source are modelled as Lean `String`s; the Python string
primitives the source uses (`strip`, `rstrip`, `splitlines`, `startswith`,
`split`, `int(...)`) are given explicit character-list definitions matching
CPython semantics on the inputs involved (exotic Unicode line boundaries of
`str.splitlines` are not modelled; the files in question use `\n`/`\r`).
-/

namespace Analytics

/-- The whitespace characters recognised by Python `str.strip()` on ASCII
text: space, tab, newline, carriage return, vertical tab, form feed. -/
def isPySpace (c : Char) : Bool :=
  c = ' ' || c = '\t' || c = '\n' || c = '\r' || c = '\x0b' || c = '\x0c'

/-- Python `str.lstrip()`. -/
def pyLstrip (s : String) : String :=
  ⟨s.data.dropWhile isPySpace⟩

/-- Python `str.rstrip()`. -/
def pyRstrip (s : String) : String :=
  ⟨(s.data.reverse.dropWhile isPySpace).reverse⟩

/-- Python `str.strip()`. -/
def pyStrip (s : String) : String :=
  pyRstrip (pyLstrip s)

/-- Python `str.rstrip(";")`: drop every trailing semicolon. -/
def pyRstripSemicolon (s : String) : String :=
  ⟨(s.data.reverse.dropWhile (fun c => c = ';')).reverse⟩

/-- Python `str.startswith(pre)`. -/
def pyStartswith (s pre : String) : Bool :=
  pre.data.isPrefixOf s.data

/-- Python `str.endswith(suf)`. -/
def pyEndswith (s suf : String) : Bool :=
  suf.data.isSuffixOf s.data

/-- Worker for `pySplitlines`: first argument the remaining characters,
second the (reversed) characters of the line being accumulated. -/
def pySplitlinesAux : List Char → List Char → List String
  | [], acc => if acc.isEmpty then [] else [⟨acc.reverse⟩]
  | '\r' :: '\n' :: rest, acc => (⟨acc.reverse⟩ : String) :: pySplitlinesAux rest []
  | '\n' :: rest, acc => (⟨acc.reverse⟩ : String) :: pySplitlinesAux rest []
  | '\r' :: rest, acc => (⟨acc.reverse⟩ : String) :: pySplitlinesAux rest []
  | c :: rest, acc => pySplitlinesAux rest (c :: acc)

/-- Python `str.splitlines()` over `\n`, `\r\n` and `\r` boundaries: a
terminator ends a line and a trailing terminator produces no empty final
line. -/
def pySplitlines (s : String) : List String :=
  pySplitlinesAux s.data []

/-- The loop body of `migrations._split_sql_statements`: the first argument
is the remaining lines of the file, the second the `buffer` list of raw
lines of the statement currently being accumulated; returns the statements
emitted from this point on. -/
def splitSqlAux : List String → List String → List String
  | [], buffer =>
    if buffer.isEmpty then []
    else
      let statement := pyStrip (String.intercalate "\n" buffer)
      if statement = "" then [] else [statement]
  | raw_line :: rest, buffer =>
    let stripped := pyStrip raw_line
    if stripped = "" then splitSqlAux rest buffer
    else if pyStartswith stripped "--" then splitSqlAux rest buffer
    else
      let buffer2 := buffer ++ [raw_line]
      if pyEndswith stripped ";" then
        let statement := pyRstripSemicolon (pyRstrip (String.intercalate "\n" buffer2))
        if statement = "" then splitSqlAux rest []
        else statement :: splitSqlAux rest []
      else splitSqlAux rest buffer2

/-- `migrations._split_sql_statements`: split SQL text into executable
statements, dropping blank and `--`-comment lines, closing a statement at a
line whose stripped form ends in `;`, and emitting leftover buffered text as
a final statement. -/
def _split_sql_statements (sql : String) : List String :=
  splitSqlAux (pySplitlines sql) []

/-- Python `s[n:]` on a string: drop the first `n` characters. -/
def pyDrop (s : String) (n : Nat) : String :=
  ⟨s.data.drop n⟩

/-- Python `s.lstrip()` is `pyLstrip`; `" " in s`. -/
def pyContainsSpace (s : String) : Bool :=
  s.data.contains ' '

/-- Python `s.split(" ", 1)` when `s` contains a space: the part before the
first space and the part after it. -/
def pySplitFirstSpace (s : String) : String × String :=
  (⟨s.data.takeWhile (fun c => c ≠ ' ')⟩,
   ⟨(s.data.dropWhile (fun c => c ≠ ' ')).drop 1⟩)

/-- A Python `dict[str, str]` restricted to the operations `_parse_metadata`
uses, as an insertion-ordered association list: `dictSet` overwrites an
existing key in place or appends a new one. -/
def dictSet (m : List (String × String)) (k v : String) : List (String × String) :=
  if m.any (fun p => p.1 = k) then m.map (fun p => if p.1 = k then (k, v) else p)
  else m ++ [(k, v)]

/-- Python `m.get(k, dflt)`. -/
def dictGet (m : List (String × String)) (k dflt : String) : String :=
  match m.find? (fun p => p.1 = k) with
  | some p => p.2
  | none => dflt

/-- Python `m.get(k)` (`None` when absent). -/
def dictFind (m : List (String × String)) (k : String) : Option String :=
  (m.find? (fun p => p.1 = k)).map (·.2)

/-- Python truthiness of `current_key : str | None`: `None` and `""` are
falsy. -/
def keyTruthy : Option String → Bool
  | some k => k ≠ ""
  | none => false

/-- The loop of `sql_jobs._parse_metadata`: remaining lines, the metadata
dict accumulated so far, and `current_key`. -/
def parseMetadataAux :
    List String → List (String × String) → Option String → List (String × String)
  | [], metadata, _ => metadata
  | raw_line :: rest, metadata, current_key =>
    let line := pyStrip raw_line
    if pyStartswith line "--" = false then metadata
    else
      let content := pyStrip (pyDrop line 2)
      if content = "" then parseMetadataAux rest metadata current_key
      else if pyStartswith content "@" then
        let kv :=
          if pyContainsSpace content then pySplitFirstSpace (pyDrop content 1)
          else (pyDrop content 1, "")
        parseMetadataAux rest (dictSet metadata kv.1 (pyStrip kv.2)) (some kv.1)
      else if pyStartswith content "|" && keyTruthy current_key then
        let ck := current_key.getD ""
        parseMetadataAux rest
          (dictSet metadata ck (dictGet metadata ck "" ++ "\n" ++ pyLstrip (pyDrop content 1)))
          current_key
      else parseMetadataAux rest metadata current_key

/-- `sql_jobs._parse_metadata`: metadata extracted from the leading `--`
comment block of a SQL definition file. -/
def _parse_metadata (lines : List String) : List (String × String) :=
  parseMetadataAux lines [] none

/-- Lexicographic comparison of character lists by code point, the order
Python uses to compare strings (and hence the order of `sorted(...)` over
filenames). -/
def pyCharListLe : List Char → List Char → Bool
  | [], _ => true
  | _ :: _, [] => false
  | a :: as, b :: bs =>
    if a.toNat < b.toNat then true
    else if b.toNat < a.toNat then false
    else pyCharListLe as bs

/-- Python `a <= b` on strings. -/
def pyStrLe (a b : String) : Bool :=
  pyCharListLe a.data b.data

/-- `sql_jobs.SqlJobDefinition`: structured metadata extracted from a SQL
definition file (`source_file` kept as the file's name). -/
structure SqlJobDefinition where
  name : String
  job_type : String
  object_name : String
  refresh_sql : String
  source_file : String
  description : Option String
deriving Repr, DecidableEq

/-- Python truthiness of `metadata.get(k)` as used by `load_sql_jobs`:
`None` (key absent) and the empty string are falsy. -/
def optTruthy : Option String → Bool
  | some s => s ≠ ""
  | none => false

/-- The per-file body of `sql_jobs.load_sql_jobs`: parse the metadata of one
file and either produce its `SqlJobDefinition` or skip the file (`none`).
Mirrors the required-key check, the `materialized_view` default for
`refresh_sql`, and the rejection of other types without `refresh_sql`. -/
def loadJobFromFile (filename text : String) : Option SqlJobDefinition :=
  let metadata := _parse_metadata (pySplitlines text)
  let name := dictFind metadata "name"
  let job_type := dictFind metadata "type"
  let object_name := dictFind metadata "object"
  let refresh_sql := dictFind metadata "refresh_sql"
  let description :=
    match dictFind metadata "description" with
    | some s => if s = "" then none else some s
    | none => none
  if optTruthy name && optTruthy job_type && optTruthy object_name then
    if job_type.getD "" = "materialized_view" && !(optTruthy refresh_sql) then
      some
        { name := name.getD "", job_type := job_type.getD "",
          object_name := object_name.getD "",
          refresh_sql := "REFRESH MATERIALIZED VIEW CONCURRENTLY " ++ object_name.getD "",
          source_file := filename, description := description }
    else if !(optTruthy refresh_sql) then none
    else
      some
        { name := name.getD "", job_type := job_type.getD "",
          object_name := object_name.getD "",
          refresh_sql := refresh_sql.getD "",
          source_file := filename, description := description }
  else none

/-- A directory as the loader and the migration applier see it: `none` when
the directory does not exist, otherwise the list of its files as
(filename, content) pairs. -/
def Directory := Option (List (String × String))

/-- `pathlib.Path.glob("*.sql")` membership for a filename: any name ending
in `.sql` (pathlib's glob, unlike the `glob` module, also matches
dot-leading hidden files). -/
def globSqlMatch (filename : String) : Bool :=
  pyEndswith filename ".sql"

/-- `sql_jobs.load_sql_jobs`: an absent directory yields `[]`; otherwise the
`*.sql` files are processed in lexicographic filename order and each file
yields at most one definition via `loadJobFromFile`. -/
def load_sql_jobs (dir : Directory) : List SqlJobDefinition :=
  match dir with
  | none => []
  | some entries =>
    let files := entries.filter (fun e => globSqlMatch e.1)
    let sortedFiles := files.insertionSort (fun a b => pyStrLe a.1 b.1 = true)
    sortedFiles.filterMap (fun e => loadJobFromFile e.1 e.2)

/-- Python `str.split()` with no argument: split on runs of whitespace,
producing no empty parts. -/
def pySplitWsAux : List Char → List Char → List String
  | [], acc => if acc.isEmpty then [] else [⟨acc.reverse⟩]
  | c :: rest, acc =>
    if isPySpace c then
      if acc.isEmpty then pySplitWsAux rest []
      else (⟨acc.reverse⟩ : String) :: pySplitWsAux rest []
    else pySplitWsAux rest (c :: acc)

/-- Python `str.split()`. -/
def pySplitWs (s : String) : List String :=
  pySplitWsAux s.data []

/-- Decimal digit predicate of Python `int()`. -/
def pyIsDigit (c : Char) : Bool :=
  48 ≤ c.toNat && c.toNat ≤ 57

/-- Numeric value of a list of decimal digit characters. -/
def digitsToNat (cs : List Char) : Nat :=
  cs.foldl (fun n c => 10 * n + (c.toNat - 48)) 0

/-- Python `int(s)` on a string: surrounding whitespace allowed, optional
sign, then decimal digits possibly grouped by single underscores placed
between digits; `none` models the `ValueError`. -/
def pyInt (s : String) : Option Int :=
  let t := pyStrip s
  let signAndDigits : Int × List Char :=
    match t.data with
    | '+' :: rest => (1, rest)
    | '-' :: rest => (-1, rest)
    | l => (1, l)
  let ds := signAndDigits.2
  if ds.isEmpty then none
  else
    let groups := ds.splitOn '_'
    if groups.any (fun g => g.isEmpty) then none
    else if groups.all (fun g => g.all pyIsDigit) then
      some (signAndDigits.1 * (digitsToNat (ds.filter (fun c => c ≠ '_')) : Int))
    else none

/-- `sql_jobs.SqlJobResult`: execution metrics for one SQL job invocation.
Wall-clock readings (`duration_ms`, the UTC timestamps) are opaque inputs
supplied by the caller's clock. -/
structure SqlJobResult where
  definition : SqlJobDefinition
  success : Bool
  duration_ms : Float
  rows_affected : Option Int
  message : Option String
  started_at : Int
  finished_at : Int

/-- `sql_jobs.execute_sql_job`: the outcome of `connection.execute` on the
definition's `refresh_sql` is the `execResult` input (`Except.ok tag` for a
normal return of the backend's result tag, `Except.error exc` when the call
raises with text `exc`); the clock readings are the remaining inputs. The
function is total: an execution error becomes a failed result, it never
propagates. -/
def execute_sql_job (execResult : Except String String)
    (definition : SqlJobDefinition) (started_at finished_at : Int)
    (duration_ms : Float) : SqlJobResult :=
  match execResult with
  | Except.ok result =>
    let rows_affected :=
      if pyStartswith result "INSERT" then
        match (pySplitWs result).getLast? with
        | some w => pyInt w
        | none => none
      else none
    { definition := definition, success := true, duration_ms := duration_ms,
      rows_affected := rows_affected, message := some result,
      started_at := started_at, finished_at := finished_at }
  | Except.error exc =>
    { definition := definition, success := false, duration_ms := duration_ms,
      rows_affected := none, message := some exc,
      started_at := started_at, finished_at := finished_at }

/-- The loop of `jobs.run_sql_refresh_jobs` over the discovered definitions:
`execOutcome` is the backend's response per definition, `record` the outcome
of `record_job_result` (which may raise: `Except.error`), `times` the clock
readings for the `i`-th job. Returns, per executed job, its result and
whether the audit row was persisted; a `record` failure is caught (logged)
and the loop continues with the remaining jobs. -/
def runRefreshAux (execOutcome : SqlJobDefinition → Except String String)
    (record : SqlJobResult → Except String Unit)
    (times : Nat → Int × Int × Float) (i : Nat) :
    List SqlJobDefinition → List (SqlJobResult × Bool)
  | [] => []
  | d :: rest =>
    let t := times i
    let result := execute_sql_job (execOutcome d) d t.1 t.2.1 t.2.2
    let recorded :=
      match record result with
      | Except.ok _ => true
      | Except.error _ => false
    (result, recorded) :: runRefreshAux execOutcome record times (i + 1) rest

/-- `jobs.run_sql_refresh_jobs`: load the definitions from the directory and
run the batch. -/
def run_sql_refresh_jobs (dir : Directory)
    (execOutcome : SqlJobDefinition → Except String String)
    (record : SqlJobResult → Except String Unit)
    (times : Nat → Int × Int × Float) : List (SqlJobResult × Bool) :=
  runRefreshAux execOutcome record times 0 (load_sql_jobs dir)

/-! ### Migration applier (`analytics_app/migrations.py`) -/

/-- The database as the migration applier sees it: whether the
`analytics_sql_migrations` tracking table exists, its rows (the applied
filenames), and the rest of the store, abstracted as a schema state `σ`
transformed by an oracle `execStmt` per executed statement. -/
structure Database (σ : Type) where
  migrations_table : Bool
  applied : List String
  schema : σ
deriving Repr, DecidableEq

/-- `migrations._ensure_migrations_table`: `CREATE TABLE IF NOT EXISTS` —
a no-op when the tracking table exists, otherwise creates it empty. -/
def ensureMigrationsTable {σ : Type} (db : Database σ) : Database σ :=
  if db.migrations_table then db
  else { db with migrations_table := true, applied := [] }

/-- `migrations._run_statements`: execute the statements in sequence,
skipping any whose stripped form is empty; the first failure aborts. -/
def runStatements {σ : Type} (execStmt : σ → String → Except String σ)
    (s : σ) : List String → Except String σ
  | [] => Except.ok s
  | stmt :: rest =>
    if pyStrip stmt = "" then runStatements execStmt s rest
    else
      match execStmt s stmt with
      | Except.ok s2 => runStatements execStmt s2 rest
      | Except.error e => Except.error e

/-- The `async with connection.transaction()` block of
`apply_sql_directory` for one file: run the file's statements, then insert
the tracking row (which the primary key makes fail on a duplicate
filename); any failure rolls the whole block back, so the caller keeps its
previous `Database` value. -/
def applyFileTxn {σ : Type} (execStmt : σ → String → Except String σ)
    (db : Database σ) (filename content : String) : Except String (Database σ) :=
  match runStatements execStmt db.schema (_split_sql_statements content) with
  | Except.error e => Except.error e
  | Except.ok schema2 =>
    if filename ∈ db.applied then
      Except.error "duplicate key value violates unique constraint"
    else
      Except.ok { db with schema := schema2, applied := db.applied ++ [filename] }

/-- The per-file loop of `apply_sql_directory`: a filename already in the
tracking table is skipped; otherwise the file runs in one transaction, and
a failure surfaces the error with the database rolled back to the state
before that file, without processing the remaining files. -/
def applyFilesLoop {σ : Type} (execStmt : σ → String → Except String σ) :
    List (String × String) → Database σ → Database σ × Option String
  | [], db => (db, none)
  | (filename, content) :: rest, db =>
    if filename ∈ db.applied then applyFilesLoop execStmt rest db
    else
      match applyFileTxn execStmt db filename content with
      | Except.ok db2 => applyFilesLoop execStmt rest db2
      | Except.error e => (db, some e)

/-- `pathlib.Path.suffix == ".sql"` for a filename: ends in `.sql` with a
nonempty stem (`".sql"` itself has no suffix). -/
def suffixSqlMatch (filename : String) : Bool :=
  pyEndswith filename ".sql" && !(filename = ".sql")

/-- `migrations.apply_sql_directory`: an absent directory is a no-op, as is
one with no `.sql` files; otherwise ensure the tracking table and apply the
`.sql` files in lexicographic filename order. Returns the final database
and the error surfaced, if any. -/
def apply_sql_directory {σ : Type} (execStmt : σ → String → Except String σ)
    (dir : Directory) (db : Database σ) : Database σ × Option String :=
  match dir with
  | none => (db, none)
  | some entries =>
    let files := entries.filter (fun e => suffixSqlMatch e.1)
    let sortedFiles := files.insertionSort (fun a b => pyStrLe a.1 b.1 = true)
    if sortedFiles.isEmpty then (db, none)
    else applyFilesLoop execStmt sortedFiles (ensureMigrationsTable db)

/-! ### Scheduler manager (`analytics_app/scheduler.py`) -/

/-- `config.SchedulerConfig` (the fields `SchedulerManager.start` consumes). -/
structure SchedulerConfig where
  refresh_interval_seconds : Int := 300
  retention_interval_seconds : Int := 3600
  partition_interval_seconds : Int := 86400
  views_to_refresh : List String := ["mv_player_advanced_stats"]
  retention_procedure : Option String := none
  partition_procedure : Option String := none
  sql_jobs_directory : String := "sql/analytics"
deriving Repr, DecidableEq

/-- Modelled from the spec: the callables `scheduler.py` binds to its three
triggers. `refresh_materialized_views` is imported from `analytics_app.jobs`
but that module does not define it (the repository's refresh-batch job
bodies live in `jobs.py`); its identity here is only a tag naming which job
a trigger is bound to. -/
inductive JobFunc where
  | refresh_materialized_views
  | run_retention_procedure
  | run_partition_procedure
deriving Repr, DecidableEq

/-- The arguments `SchedulerManager.start` binds to a trigger alongside the
pool: the view list for the refresh job, the scheduler configuration for the
maintenance procedures. -/
inductive JobArgs where
  | viewList (views : List String)
  | schedulerConf (conf : SchedulerConfig)
deriving Repr, DecidableEq

/-- One APScheduler job entry as `SchedulerManager` creates it: stable id,
bound callable, interval trigger in seconds, bound arguments. The
`next_run_time` of a live entry is wall-clock state and is not modelled. -/
structure JobEntry where
  id : String
  func : JobFunc
  interval_seconds : Int
  args : JobArgs
deriving Repr, DecidableEq

/-- Modelled from the spec: APScheduler's `add_job` with
`replace_existing=True` (the only form the source uses) — re-adding an id
already in the store replaces that entry in place, otherwise the entry is
appended; no two entries share an id. -/
def add_job (store : List JobEntry) (entry : JobEntry) : List JobEntry :=
  if store.any (fun j => j.id = entry.id) then
    store.map (fun j => if j.id = entry.id then entry else j)
  else store ++ [entry]

/-- The scheduler's in-memory state: its job store and whether it is
firing. -/
structure SchedulerState where
  jobs : List JobEntry
  running : Bool
deriving Repr, DecidableEq

/-- The state of a freshly constructed `SchedulerManager` (its
`AsyncIOScheduler` holds no jobs and is not running). -/
def schedulerInit : SchedulerState :=
  { jobs := [], running := false }

/-- `SchedulerManager.start`: register the three periodic triggers under
their stable ids (replacing any existing entry with the same id), then begin
firing. Modelled from the spec: the underlying scheduler's own `start()` is
"then begins firing" — represented as setting `running`. -/
def SchedulerManager.start (config : SchedulerConfig) (st : SchedulerState) :
    SchedulerState :=
  let s1 := add_job st.jobs
    { id := "refresh_materialized_views", func := JobFunc.refresh_materialized_views,
      interval_seconds := config.refresh_interval_seconds,
      args := JobArgs.viewList config.views_to_refresh }
  let s2 := add_job s1
    { id := "retention_maintenance", func := JobFunc.run_retention_procedure,
      interval_seconds := config.retention_interval_seconds,
      args := JobArgs.schedulerConf config }
  let s3 := add_job s2
    { id := "partition_maintenance", func := JobFunc.run_partition_procedure,
      interval_seconds := config.partition_interval_seconds,
      args := JobArgs.schedulerConf config }
  { jobs := s3, running := true }

/-- `SchedulerManager.snapshot`: one diagnostic entry per job of the store,
carrying its id and its interval trigger (the wall-clock `next_run_time`
field is not modelled). -/
def SchedulerManager.snapshot (st : SchedulerState) : List (String × Int) :=
  st.jobs.map (fun j => (j.id, j.interval_seconds))

theorem pyCharListLe_total (a : List Char) :
    ∀ b, pyCharListLe a b = true ∨ pyCharListLe b a = true := by
  induction a with
  | nil => intro b; left; rfl
  | cons x as ih =>
    intro b
    cases b with
    | nil => right; rfl
    | cons y bs =>
      rcases Nat.lt_trichotomy x.toNat y.toNat with hlt | heq | hgt
      · left; simp [pyCharListLe, hlt]
      · have h1 : ¬x.toNat < y.toNat := by omega
        have h2 : ¬y.toNat < x.toNat := by omega
        rcases ih bs with h | h
        · left; simp [pyCharListLe, h1, h2, h]
        · right; simp [pyCharListLe, h1, h2, h]
      · right; simp [pyCharListLe, hgt]

theorem pyCharListLe_trans (a : List Char) :
    ∀ b c, pyCharListLe a b = true → pyCharListLe b c = true →
      pyCharListLe a c = true := by
  induction a with
  | nil => intro b c _ _; rfl
  | cons x as ih =>
    intro b c h1 h2
    cases b with
    | nil => simp [pyCharListLe] at h1
    | cons y bs =>
      cases c with
      | nil => simp [pyCharListLe] at h2
      | cons z cs =>
        unfold pyCharListLe at h1 h2 ⊢
        by_cases hxy : x.toNat < y.toNat
        · by_cases hyz : y.toNat < z.toNat
          · have hxz : x.toNat < z.toNat := by omega
            simp [hxz]
          · by_cases hzy : z.toNat < y.toNat
            · rw [if_neg hyz, if_pos hzy] at h2; cases h2
            · have hxz : x.toNat < z.toNat := by omega
              simp [hxz]
        · by_cases hyx : y.toNat < x.toNat
          · rw [if_neg hxy, if_pos hyx] at h1; cases h1
          · rw [if_neg hxy, if_neg hyx] at h1
            by_cases hyz : y.toNat < z.toNat
            · have hxz : x.toNat < z.toNat := by omega
              simp [hxz]
            · by_cases hzy : z.toNat < y.toNat
              · rw [if_neg hyz, if_pos hzy] at h2; cases h2
              · rw [if_neg hyz, if_neg hzy] at h2
                have h3 : ¬x.toNat < z.toNat := by omega
                have h4 : ¬z.toNat < x.toNat := by omega
                rw [if_neg h3, if_neg h4]
                exact ih bs cs h1 h2

theorem loadJob_source (fn text : String) (d : SqlJobDefinition)
    (h : loadJobFromFile fn text = some d) : d.source_file = fn := by
  simp only [loadJobFromFile] at h
  split at h
  · split at h
    · injection h with h; subst h; rfl
    · split at h
      · cases h
      · injection h with h; subst h; rfl
  · cases h

theorem load_map_source_sublist (l : List (String × String)) :
    List.Sublist
      ((l.filterMap (fun e => loadJobFromFile e.1 e.2)).map
        (fun d => d.source_file))
      (l.map (fun e => e.1)) := by
  induction l with
  | nil => simp
  | cons e rest ih =>
    cases h : loadJobFromFile e.1 e.2 with
    | none =>
      simp only [List.filterMap_cons, h, List.map_cons]
      exact ih.cons _
    | some d =>
      simp only [List.filterMap_cons, h, List.map_cons]
      rw [loadJob_source e.1 e.2 d h]
      exact ih.cons₂ _

end Analytics

example :
    Analytics._split_sql_statements "SELECT 1;\n-- comment\nSELECT 2;" =
      ["SELECT 1", "SELECT 2"] := by
  decide

example :
    Analytics.load_sql_jobs
      (some [("b.sql", "-- @name j2\n-- @type materialized_view\n-- @object mv_b"),
             ("a.sql", "-- @name j1\n-- @type table\n-- @object t_a\n-- @refresh_sql SELECT 1")]) =
      [{ name := "j1", job_type := "table", object_name := "t_a",
         refresh_sql := "SELECT 1", source_file := "a.sql", description := none },
       { name := "j2", job_type := "materialized_view", object_name := "mv_b",
         refresh_sql := "REFRESH MATERIALIZED VIEW CONCURRENTLY mv_b",
         source_file := "b.sql", description := none }] := by
  decide

example :
    Analytics._parse_metadata
      ["-- @name pop_trend", "-- @type materialized_view", "-- |cont", "SELECT 1"] =
      [("name", "pop_trend"), ("type", "materialized_view\ncont")] := by
  decide

example :
    Analytics._parse_metadata ["-- |orphan", "-- @name x"] = [("name", "x")] := by
  decide

namespace Analytics

/-- Claim C3: on any execution error the job executor returns a failed
result rather than propagating: `success = false`, `message` is exactly the
error's text (hence non-empty when the error's text is), and
`rows_affected = none`. The executor's totality in Lean embeds "never
raises — it always returns a result object". -/
theorem claim_C3 (definition : SqlJobDefinition) (exc : String)
    (started_at finished_at : Int) (duration_ms : Float) (hexc : exc ≠ "") :
    (execute_sql_job (Except.error exc) definition started_at finished_at
        duration_ms).success = false ∧
    (execute_sql_job (Except.error exc) definition started_at finished_at
        duration_ms).message = some exc ∧
    (∀ m, (execute_sql_job (Except.error exc) definition started_at finished_at
        duration_ms).message = some m → m ≠ "") ∧
    (execute_sql_job (Except.error exc) definition started_at finished_at
        duration_ms).rows_affected = none := by
  refine ⟨rfl, rfl, ?_, rfl⟩
  intro m hm
  simp only [execute_sql_job, Option.some.injEq] at hm
  exact hm ▸ hexc

/-- Claim C3, witnessed on a definition whose statement fails with text
`relation does not exist`. -/
theorem claim_C3_witness :
    (execute_sql_job (Except.error "relation does not exist")
        { name := "pop_trend", job_type := "materialized_view",
          object_name := "mv_population",
          refresh_sql := "REFRESH MATERIALIZED VIEW CONCURRENTLY mv_population",
          source_file := "pop_trend.sql", description := none }
        0 1 (2.5 : Float)).success = false ∧
    (execute_sql_job (Except.error "relation does not exist")
        { name := "pop_trend", job_type := "materialized_view",
          object_name := "mv_population",
          refresh_sql := "REFRESH MATERIALIZED VIEW CONCURRENTLY mv_population",
          source_file := "pop_trend.sql", description := none }
        0 1 (2.5 : Float)).message = some "relation does not exist" ∧
    (∀ m, (execute_sql_job (Except.error "relation does not exist")
        { name := "pop_trend", job_type := "materialized_view",
          object_name := "mv_population",
          refresh_sql := "REFRESH MATERIALIZED VIEW CONCURRENTLY mv_population",
          source_file := "pop_trend.sql", description := none }
        0 1 (2.5 : Float)).message = some m → m ≠ "") ∧
    (execute_sql_job (Except.error "relation does not exist")
        { name := "pop_trend", job_type := "materialized_view",
          object_name := "mv_population",
          refresh_sql := "REFRESH MATERIALIZED VIEW CONCURRENTLY mv_population",
          source_file := "pop_trend.sql", description := none }
        0 1 (2.5 : Float)).rows_affected = none :=
  claim_C3
    { name := "pop_trend", job_type := "materialized_view",
      object_name := "mv_population",
      refresh_sql := "REFRESH MATERIALIZED VIEW CONCURRENTLY mv_population",
      source_file := "pop_trend.sql", description := none }
    "relation does not exist" 0 1 (2.5 : Float) (by decide)

/-- Claim C7: on success the result's `message` is the backend's result
tag; a tag of a row-count-bearing operation (the code's predicate: it
starts with `INSERT`) has its trailing word parsed as the row count, an
unparsable trailing word giving `rows_affected = none` with the job still
successful; any other tag leaves `rows_affected = none`. -/
theorem claim_C7 (definition : SqlJobDefinition) (tag : String)
    (started_at finished_at : Int) (duration_ms : Float) :
    (execute_sql_job (Except.ok tag) definition started_at finished_at
        duration_ms).message = some tag ∧
    (execute_sql_job (Except.ok tag) definition started_at finished_at
        duration_ms).success = true ∧
    (pyStartswith tag "INSERT" = true →
      (execute_sql_job (Except.ok tag) definition started_at finished_at
          duration_ms).rows_affected =
        (match (pySplitWs tag).getLast? with
         | some w => pyInt w
         | none => none)) ∧
    (pyStartswith tag "INSERT" = false →
      (execute_sql_job (Except.ok tag) definition started_at finished_at
          duration_ms).rows_affected = none) ∧
    (execute_sql_job (Except.ok "INSERT 0 5") definition started_at finished_at
        duration_ms).rows_affected = some 5 ∧
    (execute_sql_job (Except.ok "INSERT oops") definition started_at finished_at
        duration_ms).rows_affected = none ∧
    (execute_sql_job (Except.ok "INSERT oops") definition started_at finished_at
        duration_ms).success = true := by
  refine ⟨rfl, rfl, ?_, ?_, rfl, rfl, rfl⟩
  · intro h
    simp only [execute_sql_job, h, if_true]
  · intro h
    simp only [execute_sql_job, h, Bool.false_eq_true, if_false]

/-- Claim C2: `start()` on a fresh manager registers exactly the three
periodic triggers under their stable ids, bound to the refresh job, the
retention procedure and the partition procedure respectively; a second
`start()` with the same configuration replaces each trigger rather than
duplicating it (the state is unchanged), and `snapshot()` afterwards
reports exactly three entries, one per id. -/
theorem claim_C2 (config : SchedulerConfig) :
    SchedulerManager.start config (SchedulerManager.start config schedulerInit) =
      SchedulerManager.start config schedulerInit ∧
    (SchedulerManager.start config schedulerInit).jobs.map (fun j => j.id) =
      ["refresh_materialized_views", "retention_maintenance", "partition_maintenance"] ∧
    (SchedulerManager.start config schedulerInit).jobs.map (fun j => j.func) =
      [JobFunc.refresh_materialized_views, JobFunc.run_retention_procedure,
       JobFunc.run_partition_procedure] ∧
    (SchedulerManager.snapshot
        (SchedulerManager.start config
          (SchedulerManager.start config schedulerInit))).length = 3 ∧
    ((SchedulerManager.snapshot
        (SchedulerManager.start config
          (SchedulerManager.start config schedulerInit))).map Prod.fst).Nodup := by
  refine ⟨rfl, rfl, rfl, rfl, ?_⟩
  have hids : (SchedulerManager.snapshot
      (SchedulerManager.start config
        (SchedulerManager.start config schedulerInit))).map Prod.fst =
      ["refresh_materialized_views", "retention_maintenance", "partition_maintenance"] := rfl
  rw [hids]
  decide

/-- Claim C9: a failure of `record_job_result` on one job's result is
absorbed (the job's entry appears with `recorded = false`) and the batch
continues with the remaining jobs — every remaining definition is still
executed, and nothing propagates (`runRefreshAux` is total). -/
theorem claim_C9 (execOutcome : SqlJobDefinition → Except String String)
    (record : SqlJobResult → Except String Unit)
    (times : Nat → Int × Int × Float) (i : Nat) (d : SqlJobDefinition)
    (rest : List SqlJobDefinition) (e : String)
    (h : record (execute_sql_job (execOutcome d) d (times i).1 (times i).2.1
          (times i).2.2) = Except.error e) :
    runRefreshAux execOutcome record times i (d :: rest) =
      (execute_sql_job (execOutcome d) d (times i).1 (times i).2.1 (times i).2.2,
        false) :: runRefreshAux execOutcome record times (i + 1) rest ∧
    (runRefreshAux execOutcome record times i (d :: rest)).length =
      rest.length + 1 := by
  have hlen : ∀ (j : Nat) (l : List SqlJobDefinition),
      (runRefreshAux execOutcome record times j l).length = l.length := by
    intro j l
    induction l generalizing j with
    | nil => rfl
    | cons x xs ih => simp [runRefreshAux, ih]
  constructor
  · simp only [runRefreshAux, h]
  · simp [hlen]

/-- Claim C9, witnessed on a two-job batch whose audit persistence always
fails: the first job's failure to record does not stop the second job. -/
theorem claim_C9_witness :
    runRefreshAux (fun _ => Except.ok "REFRESH MATERIALIZED VIEW")
        (fun _ => Except.error "audit table missing")
        (fun _ => ((0 : Int), (1 : Int), (1.5 : Float))) 0
        [{ name := "a", job_type := "materialized_view", object_name := "mv_a",
           refresh_sql := "REFRESH MATERIALIZED VIEW CONCURRENTLY mv_a",
           source_file := "a.sql", description := none },
         { name := "b", job_type := "materialized_view", object_name := "mv_b",
           refresh_sql := "REFRESH MATERIALIZED VIEW CONCURRENTLY mv_b",
           source_file := "b.sql", description := none }] =
      (execute_sql_job
          (Except.ok "REFRESH MATERIALIZED VIEW")
          { name := "a", job_type := "materialized_view", object_name := "mv_a",
            refresh_sql := "REFRESH MATERIALIZED VIEW CONCURRENTLY mv_a",
            source_file := "a.sql", description := none } 0 1 (1.5 : Float),
        false) ::
        runRefreshAux (fun _ => Except.ok "REFRESH MATERIALIZED VIEW")
          (fun _ => Except.error "audit table missing")
          (fun _ => ((0 : Int), (1 : Int), (1.5 : Float))) 1
          [{ name := "b", job_type := "materialized_view", object_name := "mv_b",
             refresh_sql := "REFRESH MATERIALIZED VIEW CONCURRENTLY mv_b",
             source_file := "b.sql", description := none }] ∧
    (runRefreshAux (fun _ => Except.ok "REFRESH MATERIALIZED VIEW")
        (fun _ => Except.error "audit table missing")
        (fun _ => ((0 : Int), (1 : Int), (1.5 : Float))) 0
        [{ name := "a", job_type := "materialized_view", object_name := "mv_a",
           refresh_sql := "REFRESH MATERIALIZED VIEW CONCURRENTLY mv_a",
           source_file := "a.sql", description := none },
         { name := "b", job_type := "materialized_view", object_name := "mv_b",
           refresh_sql := "REFRESH MATERIALIZED VIEW CONCURRENTLY mv_b",
           source_file := "b.sql", description := none }]).length = 1 + 1 :=
  claim_C9 (fun _ => Except.ok "REFRESH MATERIALIZED VIEW")
    (fun _ => Except.error "audit table missing")
    (fun _ => ((0 : Int), (1 : Int), (1.5 : Float))) 0
    { name := "a", job_type := "materialized_view", object_name := "mv_a",
      refresh_sql := "REFRESH MATERIALIZED VIEW CONCURRENTLY mv_a",
      source_file := "a.sql", description := none }
    [{ name := "b", job_type := "materialized_view", object_name := "mv_b",
       refresh_sql := "REFRESH MATERIALIZED VIEW CONCURRENTLY mv_b",
       source_file := "b.sql", description := none }]
    "audit table missing" rfl

/-! ### Helper lemmas on the splitter and the metadata parser -/

theorem splitSqlAux_blank (raw : String) (rest buffer : List String)
    (h : pyStrip raw = "") :
    splitSqlAux (raw :: rest) buffer = splitSqlAux rest buffer := by
  simp [splitSqlAux, h]

theorem splitSqlAux_comment (raw : String) (rest buffer : List String)
    (h : pyStartswith (pyStrip raw) "--" = true) :
    splitSqlAux (raw :: rest) buffer = splitSqlAux rest buffer := by
  by_cases hb : pyStrip raw = ""
  · simp [splitSqlAux, hb]
  · simp [splitSqlAux, hb, h]

theorem splitSqlAux_close (raw : String) (rest buffer : List String)
    (h1 : pyStrip raw ≠ "") (h2 : pyStartswith (pyStrip raw) "--" = false)
    (h3 : pyEndswith (pyStrip raw) ";" = true)
    (h4 : pyRstripSemicolon (pyRstrip (String.intercalate "\n" (buffer ++ [raw]))) ≠ "") :
    splitSqlAux (raw :: rest) buffer =
      pyRstripSemicolon (pyRstrip (String.intercalate "\n" (buffer ++ [raw]))) ::
        splitSqlAux rest [] := by
  simp [splitSqlAux, h1, h2, h3, h4]

theorem splitSqlAux_leftover (buffer : List String)
    (h : pyStrip (String.intercalate "\n" buffer) ≠ "") :
    splitSqlAux [] buffer = [pyStrip (String.intercalate "\n" buffer)] := by
  cases buffer with
  | nil => exact absurd rfl h
  | cons b bs => simp [splitSqlAux, h]

theorem parseStep_at_space (raw : String) (rest : List String)
    (m : List (String × String)) (ck : Option String) (content k v : String)
    (h1 : pyStartswith (pyStrip raw) "--" = true)
    (h2 : pyStrip (pyDrop (pyStrip raw) 2) = content)
    (h3 : content ≠ "")
    (h4 : pyStartswith content "@" = true)
    (h5 : pyContainsSpace content = true)
    (h6 : pySplitFirstSpace (pyDrop content 1) = (k, v)) :
    parseMetadataAux (raw :: rest) m ck =
      parseMetadataAux rest (dictSet m k (pyStrip v)) (some k) := by
  subst h2
  simp [parseMetadataAux, h1, h3, h4, h5, h6]

theorem parseStep_at_nospace (raw : String) (rest : List String)
    (m : List (String × String)) (ck : Option String) (content k : String)
    (h1 : pyStartswith (pyStrip raw) "--" = true)
    (h2 : pyStrip (pyDrop (pyStrip raw) 2) = content)
    (h3 : content ≠ "")
    (h4 : pyStartswith content "@" = true)
    (h5 : pyContainsSpace content = false)
    (h6 : pyDrop content 1 = k) :
    parseMetadataAux (raw :: rest) m ck =
      parseMetadataAux rest (dictSet m k "") (some k) := by
  subst h2
  have hnil : pyStrip "" = "" := rfl
  simp [parseMetadataAux, h1, h3, h4, h5, h6, hnil]

theorem parseStep_cont (raw : String) (rest : List String)
    (m : List (String × String)) (k content t : String)
    (h1 : pyStartswith (pyStrip raw) "--" = true)
    (h2 : pyStrip (pyDrop (pyStrip raw) 2) = content)
    (h3 : content ≠ "")
    (h4 : pyStartswith content "@" = false)
    (h5 : pyStartswith content "|" = true)
    (h6 : pyDrop content 1 = t)
    (h7 : k ≠ "") :
    parseMetadataAux (raw :: rest) m (some k) =
      parseMetadataAux rest
        (dictSet m k (dictGet m k "" ++ "\n" ++ pyLstrip t)) (some k) := by
  subst h2
  simp [parseMetadataAux, h1, h3, h4, h5, h6, keyTruthy, h7]

theorem parseStep_orphan (raw : String) (rest : List String)
    (m : List (String × String)) (content : String)
    (h1 : pyStartswith (pyStrip raw) "--" = true)
    (h2 : pyStrip (pyDrop (pyStrip raw) 2) = content)
    (h3 : content ≠ "")
    (h4 : pyStartswith content "@" = false)
    (h5 : pyStartswith content "|" = true) :
    parseMetadataAux (raw :: rest) m none = parseMetadataAux rest m none := by
  subst h2
  simp [parseMetadataAux, h1, h3, h4, h5, keyTruthy]

theorem find_map_set (m : List (String × String)) (k v : String) :
    ((m.map (fun p => if p.1 = k then (k, v) else p)).find?
        (fun p => p.1 = k)) =
      if m.any (fun p => p.1 = k) then some (k, v) else none := by
  induction m with
  | nil => simp
  | cons p ps ih =>
    by_cases hp : p.1 = k
    · simp [hp, List.find?]
    · rw [List.map_cons, if_neg hp, List.find?_cons_of_neg _ (by simp [hp]), ih,
        List.any_cons, decide_eq_false hp, Bool.false_or]

theorem find_append_last (m : List (String × String)) (k v : String)
    (h : m.any (fun p => p.1 = k) = false) :
    ((m ++ [(k, v)]).find? (fun p => p.1 = k)) = some (k, v) := by
  induction m with
  | nil => simp
  | cons p ps ih =>
    simp only [List.any_cons, Bool.or_eq_false_iff, decide_eq_false_iff_not] at h
    rw [List.cons_append, List.find?_cons_of_neg _ (by simp [h.1])]
    exact ih h.2

/-- A later `dictSet` of a key replaces whatever value the dict held for it:
`dictGet` afterwards returns exactly the new value. -/
theorem dictGet_dictSet (m : List (String × String)) (k v : String) :
    dictGet (dictSet m k v) k "" = v := by
  cases hb : m.any (fun p => p.1 = k) with
  | true =>
    rw [dictGet, dictSet, if_pos hb, find_map_set, hb]
    simp
  | false =>
    rw [dictGet, dictSet, if_neg (by simp [hb]), find_append_last m k v hb]

/-- Claim C6: the statement splitter drops blank lines and `--`-comment
lines (whatever the buffer holds, so also mid-statement), closes a
statement at a line whose stripped form ends in `;` (with the terminator
and trailing whitespace stripped from the emitted text, and the buffer
reset), emits leftover buffered text at end of input as a final statement,
and on `"SELECT 1;\n-- comment\nSELECT 2;"` returns exactly
`SELECT 1` and `SELECT 2` (with trailing unterminated text also emitted). -/
theorem claim_C6 :
    (∀ raw rest buffer, pyStrip raw = "" →
      splitSqlAux (raw :: rest) buffer = splitSqlAux rest buffer) ∧
    (∀ raw rest buffer, pyStartswith (pyStrip raw) "--" = true →
      splitSqlAux (raw :: rest) buffer = splitSqlAux rest buffer) ∧
    (∀ raw rest buffer, pyStrip raw ≠ "" →
      pyStartswith (pyStrip raw) "--" = false →
      pyEndswith (pyStrip raw) ";" = true →
      pyRstripSemicolon (pyRstrip (String.intercalate "\n" (buffer ++ [raw]))) ≠ "" →
      splitSqlAux (raw :: rest) buffer =
        pyRstripSemicolon (pyRstrip (String.intercalate "\n" (buffer ++ [raw]))) ::
          splitSqlAux rest []) ∧
    (∀ buffer, pyStrip (String.intercalate "\n" buffer) ≠ "" →
      splitSqlAux [] buffer = [pyStrip (String.intercalate "\n" buffer)]) ∧
    _split_sql_statements "SELECT 1;\n-- comment\nSELECT 2;" =
      ["SELECT 1", "SELECT 2"] ∧
    _split_sql_statements "SELECT 1;\nSELECT 2" = ["SELECT 1", "SELECT 2"] :=
  ⟨splitSqlAux_blank, splitSqlAux_comment, splitSqlAux_close,
    splitSqlAux_leftover, by decide, by decide⟩

/-- Claim C8: in the metadata parser, a comment line whose content is
`@key value` (or `@key` alone, value empty) starts the key with its value
trimmed and makes it active; a comment line whose content is `|text`
appends a newline plus the left-trimmed text to the active key; a
continuation line with no active key changes nothing. -/
theorem claim_C8 :
    (∀ raw rest m ck content k v,
      pyStartswith (pyStrip raw) "--" = true →
      pyStrip (pyDrop (pyStrip raw) 2) = content →
      content ≠ "" →
      pyStartswith content "@" = true →
      pyContainsSpace content = true →
      pySplitFirstSpace (pyDrop content 1) = (k, v) →
      parseMetadataAux (raw :: rest) m ck =
        parseMetadataAux rest (dictSet m k (pyStrip v)) (some k)) ∧
    (∀ raw rest m ck content k,
      pyStartswith (pyStrip raw) "--" = true →
      pyStrip (pyDrop (pyStrip raw) 2) = content →
      content ≠ "" →
      pyStartswith content "@" = true →
      pyContainsSpace content = false →
      pyDrop content 1 = k →
      parseMetadataAux (raw :: rest) m ck =
        parseMetadataAux rest (dictSet m k "") (some k)) ∧
    (∀ raw rest m k content t,
      pyStartswith (pyStrip raw) "--" = true →
      pyStrip (pyDrop (pyStrip raw) 2) = content →
      content ≠ "" →
      pyStartswith content "@" = false →
      pyStartswith content "|" = true →
      pyDrop content 1 = t →
      k ≠ "" →
      parseMetadataAux (raw :: rest) m (some k) =
        parseMetadataAux rest
          (dictSet m k (dictGet m k "" ++ "\n" ++ pyLstrip t)) (some k)) ∧
    (∀ raw rest m content,
      pyStartswith (pyStrip raw) "--" = true →
      pyStrip (pyDrop (pyStrip raw) 2) = content →
      content ≠ "" →
      pyStartswith content "@" = false →
      pyStartswith content "|" = true →
      parseMetadataAux (raw :: rest) m none = parseMetadataAux rest m none) ∧
    _parse_metadata
        ["-- @name pop_trend", "-- @description first line", "-- |second line"] =
      [("name", "pop_trend"), ("description", "first line\nsecond line")] ∧
    _parse_metadata ["-- |orphan continuation", "-- @name x"] = [("name", "x")] :=
  ⟨parseStep_at_space, parseStep_at_nospace, parseStep_cont,
    fun raw rest m content h1 h2 h3 h4 h5 =>
      parseStep_orphan raw rest m content h1 h2 h3 h4 h5,
    by decide, by decide⟩

/-- Claim C10 (implicit): when a later `@key` line re-uses a key, its
trimmed value replaces the key's accumulated value entirely — the dict
update discards the earlier value including appended continuations, the
parser state after the later line holds exactly the new trimmed value, and
subsequent continuation lines append to the new value (last occurrence
wins), as the closed run shows end to end. -/
theorem claim_C10 :
    (∀ m k v1 v2, dictGet (dictSet (dictSet m k v1) k v2) k "" = v2) ∧
    (∀ raw rest m ck content k v,
      pyStartswith (pyStrip raw) "--" = true →
      pyStrip (pyDrop (pyStrip raw) 2) = content →
      content ≠ "" →
      pyStartswith content "@" = true →
      pyContainsSpace content = true →
      pySplitFirstSpace (pyDrop content 1) = (k, v) →
      parseMetadataAux (raw :: rest) m ck =
        parseMetadataAux rest (dictSet m k (pyStrip v)) (some k) ∧
      dictGet (dictSet m k (pyStrip v)) k "" = pyStrip v) ∧
    _parse_metadata
        ["-- @descr first", "-- |first extra", "-- @descr second", "-- |second extra"] =
      [("descr", "second\nsecond extra")] :=
  ⟨fun m k v1 v2 => dictGet_dictSet (dictSet m k v1) k v2,
    fun raw rest m ck content k v h1 h2 h3 h4 h5 h6 =>
      ⟨parseStep_at_space raw rest m ck content k v h1 h2 h3 h4 h5 h6,
        dictGet_dictSet m k (pyStrip v)⟩,
    by decide⟩

/-! ### Helper lemmas on the migration applier -/

theorem applyFileTxn_ok {σ : Type} (execStmt : σ → String → Except String σ)
    (db : Database σ) (f c : String) (db2 : Database σ)
    (h : applyFileTxn execStmt db f c = Except.ok db2) :
    db2.applied = db.applied ++ [f] ∧
    db2.migrations_table = db.migrations_table := by
  unfold applyFileTxn at h
  split at h
  · cases h
  · split at h
    · cases h
    · injection h with h
      subst h
      exact ⟨rfl, rfl⟩

theorem applyFilesLoop_applied_mono {σ : Type}
    (execStmt : σ → String → Except String σ)
    (files : List (String × String)) (db : Database σ) :
    db.applied ⊆ (applyFilesLoop execStmt files db).1.applied := by
  induction files generalizing db with
  | nil => exact fun a ha => ha
  | cons fc rest ih =>
    obtain ⟨f, c⟩ := fc
    by_cases hmem : f ∈ db.applied
    · rw [applyFilesLoop, if_pos hmem]
      exact ih db
    · rw [applyFilesLoop, if_neg hmem]
      cases htxn : applyFileTxn execStmt db f c with
      | ok db2 =>
        simp only [htxn]
        have hap := (applyFileTxn_ok execStmt db f c db2 htxn).1
        intro a ha
        exact ih db2 (hap ▸ List.mem_append_left _ ha)
      | error e =>
        simp only [htxn]
        exact fun a ha => ha

theorem applyFilesLoop_table {σ : Type}
    (execStmt : σ → String → Except String σ)
    (files : List (String × String)) (db : Database σ) :
    (applyFilesLoop execStmt files db).1.migrations_table =
      db.migrations_table := by
  induction files generalizing db with
  | nil => rfl
  | cons fc rest ih =>
    obtain ⟨f, c⟩ := fc
    by_cases hmem : f ∈ db.applied
    · rw [applyFilesLoop, if_pos hmem]
      exact ih db
    · rw [applyFilesLoop, if_neg hmem]
      cases htxn : applyFileTxn execStmt db f c with
      | ok db2 =>
        simp only [htxn]
        have htab := (applyFileTxn_ok execStmt db f c db2 htxn).2
        rw [ih db2, htab]
      | error e =>
        simp only [htxn]

theorem applyFilesLoop_all_recorded {σ : Type}
    (execStmt : σ → String → Except String σ)
    (files : List (String × String)) (db db1 : Database σ)
    (h : applyFilesLoop execStmt files db = (db1, none)) :
    ∀ p ∈ files, p.1 ∈ db1.applied := by
  induction files generalizing db with
  | nil => intro p hp; cases hp
  | cons fc rest ih =>
    obtain ⟨f, c⟩ := fc
    intro p hp
    by_cases hmem : f ∈ db.applied
    · rw [applyFilesLoop, if_pos hmem] at h
      rcases List.mem_cons.mp hp with hpe | hpr
      · subst hpe
        have := applyFilesLoop_applied_mono execStmt rest db hmem
        rw [h] at this
        exact this
      · exact ih db h p hpr
    · rw [applyFilesLoop, if_neg hmem] at h
      cases htxn : applyFileTxn execStmt db f c with
      | ok db2 =>
        simp only [htxn] at h
        rcases List.mem_cons.mp hp with hpe | hpr
        · subst hpe
          have hap := (applyFileTxn_ok execStmt db f c db2 htxn).1
          have hmono := applyFilesLoop_applied_mono execStmt rest db2
          rw [h] at hmono
          exact hmono (hap ▸ List.mem_append_right _ (List.mem_singleton.mpr rfl))
        · exact ih db2 h p hpr
      | error e =>
        simp only [htxn] at h
        simp at h

theorem applyFilesLoop_skip_all {σ : Type}
    (execStmt : σ → String → Except String σ)
    (files : List (String × String)) (db : Database σ)
    (h : ∀ p ∈ files, p.1 ∈ db.applied) :
    applyFilesLoop execStmt files db = (db, none) := by
  induction files with
  | nil => rfl
  | cons fc rest ih =>
    obtain ⟨f, c⟩ := fc
    have hf : f ∈ db.applied := h (f, c) (List.mem_cons_self _ _)
    rw [applyFilesLoop, if_pos hf]
    exact ih (fun p hp => h p (List.mem_cons_of_mem _ hp))

theorem ensureMigrationsTable_table {σ : Type} (db : Database σ) :
    (ensureMigrationsTable db).migrations_table = true := by
  unfold ensureMigrationsTable
  by_cases hd : db.migrations_table = true
  · rw [if_pos hd]; exact hd
  · rw [if_neg hd]

theorem ensureMigrationsTable_id {σ : Type} (db : Database σ)
    (h : db.migrations_table = true) : ensureMigrationsTable db = db := by
  unfold ensureMigrationsTable
  rw [if_pos h]

/-- Claim C1: when the applier reaches a file not yet recorded and any of
its statements fails, the transaction rolls the whole file back: the run
returns the database unchanged with the error surfaced, the tracking table
holds no row for that filename, none of the file's statement effects are in
the schema, and the remaining files are not processed. (`applyFilesLoop` is
the per-file loop of `apply_sql_directory`, and `db` ranges over every
intermediate state the loop can reach.) -/
theorem claim_C1 {σ : Type} (execStmt : σ → String → Except String σ)
    (db : Database σ) (filename content : String)
    (rest : List (String × String)) (e : String)
    (h1 : filename ∉ db.applied)
    (h2 : runStatements execStmt db.schema (_split_sql_statements content) =
      Except.error e) :
    applyFilesLoop execStmt ((filename, content) :: rest) db = (db, some e) ∧
    filename ∉ (applyFilesLoop execStmt ((filename, content) :: rest) db).1.applied ∧
    (applyFilesLoop execStmt ((filename, content) :: rest) db).1.schema =
      db.schema := by
  have hmain :
      applyFilesLoop execStmt ((filename, content) :: rest) db = (db, some e) := by
    rw [applyFilesLoop, if_neg h1]
    have htxn : applyFileTxn execStmt db filename content = Except.error e := by
      unfold applyFileTxn
      rw [h2]
    simp only [htxn]
  exact ⟨hmain, by rw [hmain]; exact h1, by rw [hmain]⟩

/-- Claim C1, witnessed: a two-statement file whose second statement fails
leaves no tracking row, no schema effect (the schema is the log of executed
statements), and stops the batch with the error surfaced. -/
theorem claim_C1_witness :
    applyFilesLoop
        (fun s stmt =>
          if stmt = "BOOM" then Except.error "boom" else Except.ok (s ++ [stmt]))
        [("002_seed.sql", "INSERT INTO t VALUES (1);\nBOOM;"),
         ("003_extra.sql", "SELECT 1;")]
        { migrations_table := true, applied := ["001_init.sql"],
          schema := (["CREATE TABLE t (x INT)"] : List String) } =
      ({ migrations_table := true, applied := ["001_init.sql"],
         schema := (["CREATE TABLE t (x INT)"] : List String) }, some "boom") ∧
    "002_seed.sql" ∉
      (applyFilesLoop
        (fun s stmt =>
          if stmt = "BOOM" then Except.error "boom" else Except.ok (s ++ [stmt]))
        [("002_seed.sql", "INSERT INTO t VALUES (1);\nBOOM;"),
         ("003_extra.sql", "SELECT 1;")]
        { migrations_table := true, applied := ["001_init.sql"],
          schema := (["CREATE TABLE t (x INT)"] : List String) }).1.applied ∧
    (applyFilesLoop
        (fun s stmt =>
          if stmt = "BOOM" then Except.error "boom" else Except.ok (s ++ [stmt]))
        [("002_seed.sql", "INSERT INTO t VALUES (1);\nBOOM;"),
         ("003_extra.sql", "SELECT 1;")]
        { migrations_table := true, applied := ["001_init.sql"],
          schema := (["CREATE TABLE t (x INT)"] : List String) }).1.schema =
      (["CREATE TABLE t (x INT)"] : List String) :=
  claim_C1
    (fun s stmt =>
      if stmt = "BOOM" then Except.error "boom" else Except.ok (s ++ [stmt]))
    { migrations_table := true, applied := ["001_init.sql"],
      schema := (["CREATE TABLE t (x INT)"] : List String) }
    "002_seed.sql" "INSERT INTO t VALUES (1);\nBOOM;"
    [("003_extra.sql", "SELECT 1;")] "boom" (by decide) rfl

/-- Claim C4: a second run of `apply_sql_directory` on the same directory
from the state a successful first run produced skips every file (each
filename is already recorded in the tracking table), so it changes neither
the tracking table nor the schema and reports no error. -/
theorem claim_C4 {σ : Type} (execStmt : σ → String → Except String σ)
    (dir : Directory) (db db1 : Database σ)
    (h : apply_sql_directory execStmt dir db = (db1, none)) :
    apply_sql_directory execStmt dir db1 = (db1, none) := by
  match dir with
  | none => rfl
  | some entries =>
    simp only [apply_sql_directory] at h ⊢
    by_cases hemp :
        ((entries.filter (fun e => suffixSqlMatch e.1)).insertionSort
          (fun a b => pyStrLe a.1 b.1 = true)).isEmpty = true
    · rw [if_pos hemp]
    · rw [if_neg hemp] at h ⊢
      have hall := applyFilesLoop_all_recorded execStmt _ _ _ h
      have htab : db1.migrations_table = true := by
        have hpres := applyFilesLoop_table execStmt
          ((entries.filter (fun e => suffixSqlMatch e.1)).insertionSort
            (fun a b => pyStrLe a.1 b.1 = true))
          (ensureMigrationsTable db)
        rw [h] at hpres
        rw [hpres, ensureMigrationsTable_table]
      rw [ensureMigrationsTable_id db1 htab]
      exact applyFilesLoop_skip_all execStmt _ db1 hall

/-- Claim C4, witnessed on the spec's scenario: a directory with
`001_init.sql` and `002_seed.sql` applied from an empty store; the second
run leaves the resulting state untouched and errors on nothing. -/
theorem claim_C4_witness :
    apply_sql_directory (fun s stmt => Except.ok (s ++ [stmt]))
        (some [("001_init.sql", "CREATE TABLE t (x INT);"),
               ("002_seed.sql", "INSERT INTO t VALUES (1);")])
        { migrations_table := true,
          applied := ["001_init.sql", "002_seed.sql"],
          schema := (["CREATE TABLE t (x INT)", "INSERT INTO t VALUES (1)"] :
            List String) } =
      ({ migrations_table := true,
         applied := ["001_init.sql", "002_seed.sql"],
         schema := (["CREATE TABLE t (x INT)", "INSERT INTO t VALUES (1)"] :
           List String) }, none) :=
  claim_C4 (fun s stmt => Except.ok (s ++ [stmt]))
    (some [("001_init.sql", "CREATE TABLE t (x INT);"),
           ("002_seed.sql", "INSERT INTO t VALUES (1);")])
    { migrations_table := false, applied := [], schema := ([] : List String) }
    { migrations_table := true,
      applied := ["001_init.sql", "002_seed.sql"],
      schema := (["CREATE TABLE t (x INT)", "INSERT INTO t VALUES (1)"] :
        List String) }
    (by decide)

/-! ### Helper lemmas on the job loader -/

theorem loadJob_missing (fn text : String)
    (h : dictFind (_parse_metadata (pySplitlines text)) "name" = none ∨
         dictFind (_parse_metadata (pySplitlines text)) "type" = none ∨
         dictFind (_parse_metadata (pySplitlines text)) "object" = none) :
    loadJobFromFile fn text = none := by
  simp only [loadJobFromFile]
  rcases h with h | h | h <;> simp [h, optTruthy]

theorem loadJob_mv_default (fn text n o : String)
    (hn : dictFind (_parse_metadata (pySplitlines text)) "name" = some n)
    (hn2 : n ≠ "")
    (ht : dictFind (_parse_metadata (pySplitlines text)) "type" =
      some "materialized_view")
    (ho : dictFind (_parse_metadata (pySplitlines text)) "object" = some o)
    (ho2 : o ≠ "")
    (hr : dictFind (_parse_metadata (pySplitlines text)) "refresh_sql" = none ∨
          dictFind (_parse_metadata (pySplitlines text)) "refresh_sql" = some "") :
    ∃ d, loadJobFromFile fn text = some d ∧
      d.refresh_sql = "REFRESH MATERIALIZED VIEW CONCURRENTLY " ++ o ∧
      d.name = n ∧ d.job_type = "materialized_view" ∧ d.object_name = o ∧
      d.source_file = fn := by
  have heq : loadJobFromFile fn text =
      some
        { name := n, job_type := "materialized_view", object_name := o,
          refresh_sql := "REFRESH MATERIALIZED VIEW CONCURRENTLY " ++ o,
          source_file := fn,
          description :=
            match dictFind (_parse_metadata (pySplitlines text)) "description" with
            | some s => if s = "" then none else some s
            | none => none } := by
    simp only [loadJobFromFile]
    rcases hr with hr | hr <;> simp [hn, ht, ho, hr, optTruthy, hn2, ho2]
  exact ⟨_, heq, rfl, rfl, rfl, rfl, rfl⟩

theorem loadJob_other_skip (fn text n t o : String)
    (hn : dictFind (_parse_metadata (pySplitlines text)) "name" = some n)
    (hn2 : n ≠ "")
    (ht : dictFind (_parse_metadata (pySplitlines text)) "type" = some t)
    (ht2 : t ≠ "materialized_view")
    (ho : dictFind (_parse_metadata (pySplitlines text)) "object" = some o)
    (ho2 : o ≠ "")
    (hr : dictFind (_parse_metadata (pySplitlines text)) "refresh_sql" = none ∨
          dictFind (_parse_metadata (pySplitlines text)) "refresh_sql" = some "") :
    loadJobFromFile fn text = none := by
  simp only [loadJobFromFile]
  rcases hr with hr | hr <;> simp [hn, ht, ho, hr, optTruthy, hn2, ho2, ht2]

/-- Claim C5: the loader yields `[]` for an absent directory; the
definitions it produces come from the `.sql` files in lexicographic
filename order (the produced `source_file`s are sorted); a file whose
metadata lacks `name`, `type` or `object` is skipped; a `materialized_view`
file lacking `refresh_sql` gets
`REFRESH MATERIALIZED VIEW CONCURRENTLY <object_name>` synthesized
verbatim; a file of any other type lacking `refresh_sql` is skipped — shown
end to end on the spec's `pop_trend` scenario. -/
theorem claim_C5 :
    load_sql_jobs none = [] ∧
    (∀ entries,
      ((load_sql_jobs (some entries)).map (fun d => d.source_file)).Pairwise
        (fun a b => pyStrLe a b = true)) ∧
    (∀ fn text,
      (dictFind (_parse_metadata (pySplitlines text)) "name" = none ∨
       dictFind (_parse_metadata (pySplitlines text)) "type" = none ∨
       dictFind (_parse_metadata (pySplitlines text)) "object" = none) →
      loadJobFromFile fn text = none) ∧
    (∀ fn text n o,
      dictFind (_parse_metadata (pySplitlines text)) "name" = some n →
      n ≠ "" →
      dictFind (_parse_metadata (pySplitlines text)) "type" =
        some "materialized_view" →
      dictFind (_parse_metadata (pySplitlines text)) "object" = some o →
      o ≠ "" →
      (dictFind (_parse_metadata (pySplitlines text)) "refresh_sql" = none ∨
       dictFind (_parse_metadata (pySplitlines text)) "refresh_sql" = some "") →
      ∃ d, loadJobFromFile fn text = some d ∧
        d.refresh_sql = "REFRESH MATERIALIZED VIEW CONCURRENTLY " ++ o ∧
        d.name = n ∧ d.job_type = "materialized_view" ∧ d.object_name = o ∧
        d.source_file = fn) ∧
    (∀ fn text n t o,
      dictFind (_parse_metadata (pySplitlines text)) "name" = some n →
      n ≠ "" →
      dictFind (_parse_metadata (pySplitlines text)) "type" = some t →
      t ≠ "materialized_view" →
      dictFind (_parse_metadata (pySplitlines text)) "object" = some o →
      o ≠ "" →
      (dictFind (_parse_metadata (pySplitlines text)) "refresh_sql" = none ∨
       dictFind (_parse_metadata (pySplitlines text)) "refresh_sql" = some "") →
      loadJobFromFile fn text = none) ∧
    load_sql_jobs
        (some [("pop_trend.sql",
          "-- @name pop_trend\n-- @type materialized_view\n-- @object mv_population\nSELECT 1;")]) =
      [{ name := "pop_trend", job_type := "materialized_view",
         object_name := "mv_population",
         refresh_sql := "REFRESH MATERIALIZED VIEW CONCURRENTLY mv_population",
         source_file := "pop_trend.sql", description := none }] := by
  refine ⟨rfl, ?_, loadJob_missing, loadJob_mv_default, loadJob_other_skip, by decide⟩
  intro entries
  haveI htot : IsTotal (String × String) (fun a b => pyStrLe a.1 b.1 = true) :=
    ⟨fun a b => pyCharListLe_total a.1.data b.1.data⟩
  haveI htrans : IsTrans (String × String) (fun a b => pyStrLe a.1 b.1 = true) :=
    ⟨fun a b c h1 h2 => pyCharListLe_trans a.1.data b.1.data c.1.data h1 h2⟩
  have hsorted :
      List.Sorted (fun a b : String × String => pyStrLe a.1 b.1 = true)
        ((entries.filter (fun e => globSqlMatch e.1)).insertionSort
          (fun a b => pyStrLe a.1 b.1 = true)) :=
    List.sorted_insertionSort _ _
  have hp2 :
      (((entries.filter (fun e => globSqlMatch e.1)).insertionSort
          (fun a b => pyStrLe a.1 b.1 = true)).map (fun e => e.1)).Pairwise
        (fun a b => pyStrLe a b = true) :=
    List.pairwise_map.mpr hsorted
  simp only [load_sql_jobs]
  exact
    List.Pairwise.sublist
      (load_map_source_sublist
        ((entries.filter (fun e => globSqlMatch e.1)).insertionSort
          (fun a b => pyStrLe a.1 b.1 = true)))
      hp2

end Analytics
